import Mathlib

/-!
Verification of the Google Drive MCP server (`src/index.ts`) against its
natural-language specification.

The TypeScript request handlers are shallowly embedded as pure, computable
Lean functions.  The remote Drive API and Node's `Buffer` codecs are
modelled as explicit records of fallible functions (`DriveBackend`,
`Codec`), so every handler is a total function of the backend it talks to;
a JavaScript `throw` inside a handler (a request-level failure surfaced by
the MCP SDK) is modelled as `Except.error`, while `process.exit` (fatal) is
a distinct `SetupOutcome.exited` value.  JavaScript string truthiness
(`!s` is true for both `undefined` and the empty string) is modelled by
`truthy`, and `x || d` on possibly-absent strings by `orElseStr`.
-/

namespace GDrive

/-- JavaScript truthiness of a possibly-absent string: `undefined` and the
empty string are falsy, every other string is truthy. -/
def truthy : Option String → Bool
  | none => false
  | some s => !s.isEmpty

/-- JavaScript `x || d` for a possibly-absent string `x`: the default is
taken when `x` is `undefined` or empty. -/
def orElseStr (o : Option String) (d : String) : String :=
  match o with
  | none => d
  | some s => if s.isEmpty then d else s

/-- JavaScript template-literal interpolation of a possibly-undefined
string value. -/
def tmplStr (o : Option String) : String := o.getD "undefined"

/-- The backslash character. -/
def bslash : Char := Char.ofNat 92

/-- The single-quote character. -/
def squote : Char := Char.ofNat 39

/-- First escaping pass of the call-tool handler (`src/index.ts:173`):
every backslash is doubled (global regex replace). -/
def replaceBackslash : List Char → List Char
  | [] => []
  | c :: cs =>
    if c = bslash then bslash :: bslash :: replaceBackslash cs
    else c :: replaceBackslash cs

/-- Second escaping pass of the call-tool handler (`src/index.ts:173`):
every single quote gets a backslash in front of it (global regex
replace). -/
def replaceQuote : List Char → List Char
  | [] => []
  | c :: cs =>
    if c = squote then bslash :: squote :: replaceQuote cs
    else c :: replaceQuote cs

/-- `escapedQuery` from `src/index.ts:173`: the two replacement passes in
source order (backslashes first, then quotes). -/
def escapedQuery (q : String) : String := ⟨replaceQuote (replaceBackslash q.data)⟩

/-- The per-character escape map whose pointwise extension the two passes
implement: backslash to double backslash, quote to backslash-quote,
everything else unchanged. -/
def escChar (c : Char) : List Char :=
  if c = bslash then [bslash, bslash]
  else if c = squote then [bslash, squote]
  else [c]

/-- `formattedQuery` from `src/index.ts:174`: the escaped query embedded in
the fixed Drive query template. -/
def formattedQuery (q : String) : String :=
  "fullText contains " ++ String.singleton squote ++ escapedQuery q ++ String.singleton squote

/-- Scanner for the Drive query grammar's single-quoted string literal: a
backslash escapes the character after it, and the literal ends at the
first unescaped single quote.  Returns the literal body together with the
input remaining after the closing quote, or `none` when the literal never
terminates (no unescaped quote, or a dangling escape). -/
def splitAtClose : List Char → Option (List Char × List Char)
  | [] => none
  | c :: cs =>
    if c = squote then some ([], cs)
    else if c = bslash then
      match cs with
      | [] => none
      | d :: ds =>
        match splitAtClose ds with
        | none => none
        | some (pre, post) => some (c :: d :: pre, post)
    else
      match splitAtClose cs with
      | none => none
      | some (pre, post) => some (c :: pre, post)
termination_by structural l => l

/-- The pointwise extension of `escChar` to character lists. -/
def escList : List Char → List Char
  | [] => []
  | c :: cs => escChar c ++ escList cs

/-- Prefix test on character lists. -/
def matchesAt : List Char → List Char → Bool
  | [], _ => true
  | _ :: _, [] => false
  | p :: ps, c :: cs => p = c && matchesAt ps cs

/-- JavaScript `s.startsWith(p)`. -/
def strStartsWith (s p : String) : Bool := matchesAt p.data s.data

/-- JavaScript `s.replace(pat, repl)` with a plain-string pattern: only the
first occurrence, anywhere in the string, is replaced. -/
def replaceFirstAux (pat repl : List Char) : List Char → List Char
  | [] => []
  | c :: cs =>
    if matchesAt pat (c :: cs) then repl ++ (c :: cs).drop pat.length
    else c :: replaceFirstAux pat repl cs

/-- String version of `replaceFirstAux`. -/
def replaceFirst (pat repl s : String) : String :=
  ⟨replaceFirstAux pat.data repl.data s.data⟩

/-- `request.params.uri.replace` with the scheme pattern, from
`src/index.ts:64`: recovers the file id from a resource URI.  Note that it
performs no validation: a URI without the scheme passes through
unchanged. -/
def stripScheme (uri : String) : String := replaceFirst "gdrive:///" "" uri

/-- File metadata as requested by the read handler (its metadata call asks
only for the mimeType field). -/
structure FileMeta where
  mimeType : Option String
  deriving DecidableEq

/-- A file item as returned by the Drive list call; every field may be
absent upstream. -/
structure DriveFile where
  id : Option String
  name : Option String
  mimeType : Option String
  deriving DecidableEq

/-- Parameters of a Drive list call. -/
structure FilesListParams where
  q : Option String
  pageSize : Nat
  fields : String
  pageToken : Option String
  deriving DecidableEq

/-- Response data of a Drive list call. -/
structure ListData where
  files : Option (List DriveFile)
  nextPageToken : Option String
  deriving DecidableEq

/-- The remote Drive API as seen by the handlers, modelled as a record of
fallible calls. -/
structure DriveBackend where
  getMeta : String → Except String FileMeta
  exportFile : String → String → Except String String
  getMedia : String → Except String (List Nat)
  filesList : FilesListParams → Except String ListData

/-- Node `Buffer` decoding used by the read handler: utf-8 text decoding
and base64 encoding of the downloaded bytes. -/
structure Codec where
  utf8 : List Nat → String
  b64 : List Nat → String

/-- One element of the read handler's `contents` array.  The protocol's
content structure has the two payload fields `text` and `blob`; the
handler populates exactly one of them. -/
structure ReadContent where
  uri : String
  mimeType : String
  text : Option String
  blob : Option String
  deriving DecidableEq

/-- Result shape of the read handler. -/
structure ReadResult where
  contents : List ReadContent
  deriving DecidableEq

/-- The native-document family marker (`src/index.ts:73`). -/
def gappsFamily : String := "application/vnd.google-apps"

/-- The export-format table: the `switch` at `src/index.ts:76`. -/
def exportMimeTypeFor (m : String) : String :=
  if m = "application/vnd.google-apps.document" then "text/markdown"
  else if m = "application/vnd.google-apps.spreadsheet" then "text/csv"
  else if m = "application/vnd.google-apps.presentation" then "text/plain"
  else if m = "application/vnd.google-apps.drawing" then "image/png"
  else "text/plain"

/-- The regular-file download path of the read handler
(`src/index.ts:111`-`141`): download bytes, then return decoded text for
text-like mime types and base64 otherwise. -/
def readRegular (B : DriveBackend) (K : Codec) (uri fileId : String)
    (metaMime : Option String) : Except String ReadResult :=
  match B.getMedia fileId with
  | .error e => .error e
  | .ok data =>
    let mimeType := orElseStr metaMime "application/octet-stream"
    if strStartsWith mimeType "text/" || mimeType = "application/json" then
      .ok ⟨[⟨uri, mimeType, some (K.utf8 data), none⟩]⟩
    else
      .ok ⟨[⟨uri, mimeType, none, some (K.b64 data)⟩]⟩

/-- The read-resource handler (`src/index.ts:63`-`142`). -/
def readResource (B : DriveBackend) (K : Codec) (uri : String) : Except String ReadResult :=
  match B.getMeta (stripScheme uri) with
  | .error e => .error e
  | .ok file =>
    match file.mimeType with
    | some m =>
      if strStartsWith m gappsFamily then
        match B.exportFile (stripScheme uri) (exportMimeTypeFor m) with
        | .error e => .error e
        | .ok data => .ok ⟨[⟨uri, exportMimeTypeFor m, some data, none⟩]⟩
      else readRegular B K uri (stripScheme uri) (some m)
    | none => readRegular B K uri (stripScheme uri) none

/-- A resource item of the list-resources response. -/
structure Resource where
  uri : String
  mimeType : String
  name : String
  deriving DecidableEq

/-- Result shape of the list-resources handler. -/
structure ListResult where
  resources : List Resource
  nextCursor : Option String
  deriving DecidableEq

/-- Parameters built by the list-resources handler (`src/index.ts:40`-`48`):
fixed page size and field set; `pageToken` is set only when the incoming
cursor is truthy. -/
def listParams (cursor : Option String) : FilesListParams :=
  ⟨none, 10, "nextPageToken, files(id, name, mimeType)",
   if truthy cursor then cursor else none⟩

/-- The list-resources handler (`src/index.ts:39`-`61`). -/
def listResources (B : DriveBackend) (cursor : Option String) : Except String ListResult :=
  match B.filesList (listParams cursor) with
  | .error e => .error e
  | .ok res =>
    .ok ⟨(res.files.getD []).map (fun f =>
            ⟨"gdrive:///" ++ tmplStr f.id,
             orElseStr f.mimeType "application/octet-stream",
             orElseStr f.name "Unknown"⟩),
         res.nextPageToken⟩

/-- One content item of a call-tool response. -/
structure CallContent where
  type : String
  text : String
  deriving DecidableEq

/-- Result shape of the call-tool handler. -/
structure CallToolResult where
  content : List CallContent
  isError : Bool
  deriving DecidableEq

/-- Parameters of the search's Drive list call (`src/index.ts:176`-`180`). -/
def searchParams (userQuery : String) : FilesListParams :=
  ⟨some (formattedQuery userQuery), 10,
   "files(id, name, mimeType, modifiedTime, size)", none⟩

/-- One line of the search summary (`src/index.ts:183`). -/
def fileLine (f : DriveFile) : String :=
  orElseStr f.name "Unknown" ++ " (" ++ orElseStr f.mimeType "Unknown type" ++ ")"

/-- The summary text built by the search tool (`src/index.ts:182`-`190`). -/
def searchSummary (files : Option (List DriveFile)) : String :=
  "Found " ++ toString ((files.map List.length).getD 0) ++ " files:\n" ++
    orElseStr (files.map (fun fs => String.intercalate "\n" (fs.map fileLine))) ""

/-- The recognized-tool branch of the call-tool handler after the argument
guard: escape, query the backend, summarize (`src/index.ts:173`-`194`). -/
def searchBranch (B : DriveBackend) (userQuery : String) : Except String CallToolResult :=
  match B.filesList (searchParams userQuery) with
  | .error e => .error e
  | .ok res => .ok ⟨[⟨"text", searchSummary res.files⟩], false⟩

/-- The call-tool handler (`src/index.ts:165`-`198`).  A thrown `Error` is
modelled as `Except.error`: a request-level failure, not a process
exit. -/
def callToolHandler (B : DriveBackend) (name : String) (query : Option String) :
    Except String CallToolResult :=
  if name = "search" then
    if !truthy query then .error "Query parameter is required"
    else searchBranch B (query.getD "")
  else .error "Tool not found"

/-- The five environment variables read by the credential code. -/
structure Env where
  GDRIVE_ACCESS_TOKEN : Option String
  GDRIVE_REFRESH_TOKEN : Option String
  GDRIVE_CLIENT_ID : Option String
  GDRIVE_CLIENT_SECRET : Option String
  GDRIVE_CREDENTIALS_PATH : Option String
  deriving DecidableEq

/-- Names for the five required configuration values. -/
inductive EnvVar
  | accessToken
  | refreshToken
  | clientId
  | clientSecret
  | credentialsPath
  deriving DecidableEq

/-- Projection of an environment onto one of the five variables. -/
def envGet (env : Env) : EnvVar → Option String
  | .accessToken => env.GDRIVE_ACCESS_TOKEN
  | .refreshToken => env.GDRIVE_REFRESH_TOKEN
  | .clientId => env.GDRIVE_CLIENT_ID
  | .clientSecret => env.GDRIVE_CLIENT_SECRET
  | .credentialsPath => env.GDRIVE_CREDENTIALS_PATH

/-- The variable name printed in error output for each configuration
value. -/
def envVarName : EnvVar → String
  | .accessToken => "GDRIVE_ACCESS_TOKEN"
  | .refreshToken => "GDRIVE_REFRESH_TOKEN"
  | .clientId => "GDRIVE_CLIENT_ID"
  | .clientSecret => "GDRIVE_CLIENT_SECRET"
  | .credentialsPath => "GDRIVE_CREDENTIALS_PATH"

/-- The credential record assembled by `createCredentialsFromEnv`
(`src/index.ts:217`-`223`). -/
structure Credentials where
  access_token : String
  refresh_token : String
  scope : String
  token_type : String
  expiry_date : Nat
  deriving DecidableEq

/-- The console output of the missing-variables branch
(`src/index.ts:208`-`213`). -/
def missingVarsMessage : List String :=
  ["Missing required environment variables:",
   "- GDRIVE_ACCESS_TOKEN",
   "- GDRIVE_REFRESH_TOKEN",
   "- GDRIVE_CLIENT_ID",
   "- GDRIVE_CLIENT_SECRET",
   "- GDRIVE_CREDENTIALS_PATH"]

/-- `createCredentialsFromEnv` (`src/index.ts:201`-`238`): `now` stands for
`Date.now()` and `writeOk` for success of the credential-file write; the
first component is the returned record (or `null`), the second the console
output. -/
def createCredentialsFromEnv (env : Env) (now : Nat) (writeOk : Bool) :
    Option Credentials × List String :=
  if !truthy env.GDRIVE_ACCESS_TOKEN || !truthy env.GDRIVE_REFRESH_TOKEN ||
     !truthy env.GDRIVE_CLIENT_ID || !truthy env.GDRIVE_CLIENT_SECRET ||
     !truthy env.GDRIVE_CREDENTIALS_PATH then
    (none, missingVarsMessage)
  else
    let creds : Credentials :=
      ⟨env.GDRIVE_ACCESS_TOKEN.getD "", env.GDRIVE_REFRESH_TOKEN.getD "",
       "https://www.googleapis.com/auth/drive.readonly", "Bearer", now + 3600000⟩
    if writeOk then
      (some creds,
       ["Credentials successfully written to " ++ tmplStr env.GDRIVE_CREDENTIALS_PATH])
    else
      (none, ["Error writing credentials file:"])

/-- Outcome of server startup: `exited n` models `process.exit(n)`. -/
inductive SetupOutcome
  | exited : Nat → SetupOutcome
  | ok : Credentials → SetupOutcome
  deriving DecidableEq

/-- `setupAuthentication` (`src/index.ts:297`-`324`), up to the point where
the Drive client is configured. -/
def setupAuthentication (env : Env) (now : Nat) (writeOk : Bool) : SetupOutcome :=
  if !truthy env.GDRIVE_CREDENTIALS_PATH then .exited 1
  else
    match createCredentialsFromEnv env now writeOk with
    | (none, _) => .exited 1
    | (some creds, _) =>
      if !truthy env.GDRIVE_CLIENT_ID || !truthy env.GDRIVE_CLIENT_SECRET then .exited 1
      else .ok creds

/-- Summary format prescribed by the specification sentence under test for
the search tool: the name falls back to "Unknown" only when it is absent
upstream. -/
def claimLine (f : DriveFile) : String :=
  (match f.name with
   | none => "Unknown"
   | some s => s) ++ " (" ++ orElseStr f.mimeType "Unknown type" ++ ")"

/-- Whole-summary version of `claimLine`. -/
def claimSummary (files : List DriveFile) : String :=
  "Found " ++ toString files.length ++ " files:\n" ++
    String.intercalate "\n" (files.map claimLine)

/-- Amended summary line: the name falls back to "Unknown" when it is
absent or empty, and likewise the mime type falls back to "Unknown type"
when absent or empty. -/
def amendedLine (f : DriveFile) : String :=
  (match f.name with
   | none => "Unknown"
   | some s => if s.isEmpty then "Unknown" else s) ++ " (" ++
  (match f.mimeType with
   | none => "Unknown type"
   | some s => if s.isEmpty then "Unknown type" else s) ++ ")"

/-- Whole-summary version of `amendedLine`. -/
def amendedSummary (files : List DriveFile) : String :=
  "Found " ++ toString files.length ++ " files:\n" ++
    String.intercalate "\n" (files.map amendedLine)

/-- A codec whose decoders are constant; payload contents are irrelevant to
the structural claims. -/
def K0 : Codec := ⟨fun _ => "hi", fun _ => "aGk="⟩

/-- A backend on which every remote call fails. -/
def Bfail : DriveBackend :=
  ⟨fun _ => .error "offline", fun _ _ => .error "offline",
   fun _ => .error "offline", fun _ => .error "offline"⟩

/-- A backend holding a plain text file under any id. -/
def Bmedia : DriveBackend :=
  ⟨fun _ => .ok ⟨some "text/plain"⟩, fun _ _ => .error "no export",
   fun _ => .ok [104, 105], fun _ => .error "no list"⟩

/-- A backend holding a native spreadsheet under any id. -/
def Bsheet : DriveBackend :=
  ⟨fun _ => .ok ⟨some "application/vnd.google-apps.spreadsheet"⟩,
   fun _ _ => .ok "a,b", fun _ => .error "no media", fun _ => .error "no list"⟩

/-- A backend holding a native drawing under any id. -/
def Bdraw : DriveBackend :=
  ⟨fun _ => .ok ⟨some "application/vnd.google-apps.drawing"⟩,
   fun _ _ => .ok "PNGDATA", fun _ => .error "no media", fun _ => .error "no list"⟩

/-- The two files of the specification's end-to-end search example. -/
def budgetFiles : List DriveFile :=
  [⟨some "1", some "Q1 budget.xlsx", some "application/vnd.google-apps.spreadsheet"⟩,
   ⟨some "2", some "budget-notes.txt", some "text/plain"⟩]

/-- A backend whose list call returns the two example files. -/
def Bbudget : DriveBackend :=
  ⟨fun _ => .error "no meta", fun _ _ => .error "no export",
   fun _ => .error "no media", fun _ => .ok ⟨some budgetFiles, none⟩⟩

/-- A backend whose list call returns no files but a next-page token. -/
def Bnext : DriveBackend :=
  ⟨fun _ => .error "no meta", fun _ _ => .error "no export",
   fun _ => .error "no media", fun _ => .ok ⟨some [], some "pageTwo"⟩⟩

/-- A file whose name is present but empty. -/
def emptyNameFile : DriveFile := ⟨none, some "", some "text/plain"⟩

theorem escape_eq_escList (l : List Char) :
    replaceQuote (replaceBackslash l) = escList l := by
  induction l with
  | nil => rfl
  | cons c cs ih =>
    rcases eq_or_ne c bslash with hb | hb
    · subst hb
      simp [replaceBackslash, replaceQuote, escChar, escList, ih,
        show bslash ≠ squote from by decide]
    · rcases eq_or_ne c squote with hq | hq
      · subst hq
        simp [replaceBackslash, replaceQuote, escChar, escList, ih,
          show squote ≠ bslash from by decide]
      · simp [replaceBackslash, replaceQuote, escChar, escList, ih, hb, hq]

theorem splitAtClose_escList (rest : List Char) (l : List Char) :
    splitAtClose (escList l ++ squote :: rest) = some (escList l, rest) := by
  induction l with
  | nil =>
    rw [escList, List.nil_append, splitAtClose.eq_def]
    simp
  | cons c cs ih =>
    rcases eq_or_ne c bslash with hb | hb
    · subst hb
      rw [escList, escChar]
      simp only [if_pos rfl, List.cons_append, List.append_assoc]
      rw [splitAtClose.eq_def]
      simp [show ¬(bslash = squote) from by decide, ih]
    · rcases eq_or_ne c squote with hq | hq
      · subst hq
        rw [escList, escChar]
        simp only [if_neg (show ¬(squote = bslash) from by decide), if_pos rfl,
          List.cons_append, List.append_assoc]
        rw [splitAtClose.eq_def]
        simp [show ¬(bslash = squote) from by decide, ih]
      · rw [escList, escChar]
        simp only [if_neg hb, if_neg hq, List.cons_append, List.nil_append]
        rw [splitAtClose.eq_def]
        simp [hb, hq, ih]

/-- C1.  Every backslash of the raw query is doubled and every single
quote gets a backslash in front of it (the escaping is exactly the
pointwise extension of `escChar`); consequently the escaped query cannot
terminate the single-quoted literal of the query template: scanning from
just after the template's opening quote, the first unescaped quote found
is exactly the template's own closing quote, with the whole escaped query
as literal body. -/
theorem c1_search_escaping_safe (q : String) :
    (escapedQuery q).data = escList q.data ∧
    (∀ rest : List Char,
      splitAtClose ((escapedQuery q).data ++ squote :: rest) =
        some ((escapedQuery q).data, rest)) ∧
    (formattedQuery q).data =
      "fullText contains ".data ++ squote :: ((escapedQuery q).data ++ [squote]) := by
  have h1 : (escapedQuery q).data = escList q.data := escape_eq_escList q.data
  refine ⟨h1, ?_, ?_⟩
  · intro rest
    rw [h1]
    exact splitAtClose_escList rest q.data
  · simp [formattedQuery, String.data_append, escapedQuery, String.singleton]


theorem readRegular_contents (B : DriveBackend) (K : Codec) (uri fileId : String)
    (mm : Option String) (r : ReadResult) (h : readRegular B K uri fileId mm = .ok r) :
    r.contents.map (fun c => (c.text.isSome, c.blob.isSome)) = [(true, false)] ∨
    r.contents.map (fun c => (c.text.isSome, c.blob.isSome)) = [(false, true)] := by
  unfold readRegular at h
  split at h
  · simp at h
  · dsimp only at h
    split at h
    · left; cases h; rfl
    · right; cases h; rfl

/-- C2.  Every successful read-resource response has exactly one element in
its contents array, and that element populates exactly one of the two
payload fields: `text` is populated and `blob` absent, or the other way
round — never both, never neither (the `mimeType` field is always
present by construction of `ReadContent`). -/
theorem c2_read_contents_exclusive (B : DriveBackend) (K : Codec) (uri : String)
    (r : ReadResult) (h : readResource B K uri = .ok r) :
    r.contents.length = 1 ∧
    (r.contents.map (fun c => (c.text.isSome, c.blob.isSome)) = [(true, false)] ∨
     r.contents.map (fun c => (c.text.isSome, c.blob.isSome)) = [(false, true)]) := by
  have hmap : r.contents.map (fun c => (c.text.isSome, c.blob.isSome)) = [(true, false)] ∨
      r.contents.map (fun c => (c.text.isSome, c.blob.isSome)) = [(false, true)] := by
    unfold readResource at h
    split at h
    · simp at h
    · split at h
      · split at h
        · split at h
          · simp at h
          · left; cases h; rfl
        · exact readRegular_contents _ _ _ _ _ _ h
      · exact readRegular_contents _ _ _ _ _ _ h
  refine ⟨?_, hmap⟩
  rcases hmap with h1 | h1 <;>
    simpa using congrArg List.length h1

/-- Witness for C2 at a concrete plain-text file. -/
theorem c2_witness :
    (ReadResult.mk [⟨"gdrive:///f1", "text/plain", some "hi", none⟩]).contents.length = 1 ∧
    ((ReadResult.mk [⟨"gdrive:///f1", "text/plain", some "hi", none⟩]).contents.map
        (fun c => (c.text.isSome, c.blob.isSome)) = [(true, false)] ∨
     (ReadResult.mk [⟨"gdrive:///f1", "text/plain", some "hi", none⟩]).contents.map
        (fun c => (c.text.isSome, c.blob.isSome)) = [(false, true)]) :=
  c2_read_contents_exclusive Bmedia K0 "gdrive:///f1"
    ⟨[⟨"gdrive:///f1", "text/plain", some "hi", none⟩]⟩ rfl

theorem readResource_family (B : DriveBackend) (K : Codec) (uri m : String)
    (hmeta : B.getMeta (stripScheme uri) = .ok ⟨some m⟩)
    (hfam : strStartsWith m gappsFamily = true) :
    readResource B K uri =
      match B.exportFile (stripScheme uri) (exportMimeTypeFor m) with
      | .error e => .error e
      | .ok data => .ok ⟨[⟨uri, exportMimeTypeFor m, some data, none⟩]⟩ := by
  unfold readResource
  rw [hmeta]
  dsimp only
  rw [hfam]
  exact rfl

/-- C3.  When the file's metadata mimeType belongs to the native-document
family, the read handler selects the export mimeType by the fixed table:
document to markdown, spreadsheet to CSV, presentation to plain text,
drawing to PNG, and every other family member to plain text; the returned
content carries exactly that mimeType. -/
theorem c3_export_table (B : DriveBackend) (K : Codec) (uri m : String) (r : ReadResult)
    (hmeta : B.getMeta (stripScheme uri) = .ok ⟨some m⟩)
    (hfam : strStartsWith m gappsFamily = true)
    (hread : readResource B K uri = .ok r) :
    r.contents.map ReadContent.mimeType = [exportMimeTypeFor m] ∧
    exportMimeTypeFor "application/vnd.google-apps.document" = "text/markdown" ∧
    exportMimeTypeFor "application/vnd.google-apps.spreadsheet" = "text/csv" ∧
    exportMimeTypeFor "application/vnd.google-apps.presentation" = "text/plain" ∧
    exportMimeTypeFor "application/vnd.google-apps.drawing" = "image/png" ∧
    (m ≠ "application/vnd.google-apps.document" →
     m ≠ "application/vnd.google-apps.spreadsheet" →
     m ≠ "application/vnd.google-apps.presentation" →
     m ≠ "application/vnd.google-apps.drawing" →
     exportMimeTypeFor m = "text/plain") := by
  refine ⟨?_, rfl, rfl, rfl, rfl, ?_⟩
  · rw [readResource_family B K uri m hmeta hfam] at hread
    split at hread
    · simp at hread
    · cases hread; rfl
  · intro h1 h2 h3 h4
    simp [exportMimeTypeFor, h1, h2, h3, h4]

/-- C10.  For every file whose metadata mimeType starts with the
native-document family marker, the read handler returns the exported
payload in the `text` field with the table's export mimeType and leaves
`blob` unset — including drawings, whose export mimeType is image/png yet
whose payload is still delivered as text. -/
theorem c10_family_read_is_text (B : DriveBackend) (K : Codec) (uri m : String)
    (r : ReadResult)
    (hmeta : B.getMeta (stripScheme uri) = .ok ⟨some m⟩)
    (hfam : strStartsWith m gappsFamily = true)
    (hread : readResource B K uri = .ok r) :
    r.contents.map (fun c => (c.mimeType, c.text.isSome, c.blob)) =
      [(exportMimeTypeFor m, true, (none : Option String))] := by
  rw [readResource_family B K uri m hmeta hfam] at hread
  split at hread
  · simp at hread
  · cases hread; rfl

/-- Witness for C3 at a concrete native spreadsheet. -/
theorem c3_witness :
    (ReadResult.mk [⟨"gdrive:///s1", "text/csv", some "a,b", none⟩]).contents.map
        ReadContent.mimeType = [exportMimeTypeFor "application/vnd.google-apps.spreadsheet"] ∧
    exportMimeTypeFor "application/vnd.google-apps.document" = "text/markdown" ∧
    exportMimeTypeFor "application/vnd.google-apps.spreadsheet" = "text/csv" ∧
    exportMimeTypeFor "application/vnd.google-apps.presentation" = "text/plain" ∧
    exportMimeTypeFor "application/vnd.google-apps.drawing" = "image/png" ∧
    ("application/vnd.google-apps.spreadsheet" ≠ "application/vnd.google-apps.document" →
     "application/vnd.google-apps.spreadsheet" ≠ "application/vnd.google-apps.spreadsheet" →
     "application/vnd.google-apps.spreadsheet" ≠ "application/vnd.google-apps.presentation" →
     "application/vnd.google-apps.spreadsheet" ≠ "application/vnd.google-apps.drawing" →
     exportMimeTypeFor "application/vnd.google-apps.spreadsheet" = "text/plain") :=
  c3_export_table Bsheet K0 "gdrive:///s1" "application/vnd.google-apps.spreadsheet"
    ⟨[⟨"gdrive:///s1", "text/csv", some "a,b", none⟩]⟩ rfl rfl rfl

/-- Witness for C10 at a concrete native drawing: the PNG export arrives
in the text field. -/
theorem c10_witness :
    (ReadResult.mk [⟨"gdrive:///d1", "image/png", some "PNGDATA", none⟩]).contents.map
        (fun c => (c.mimeType, c.text.isSome, c.blob)) =
      [("image/png", true, (none : Option String))] :=
  c10_family_read_is_text Bdraw K0 "gdrive:///d1" "application/vnd.google-apps.drawing"
    ⟨[⟨"gdrive:///d1", "image/png", some "PNGDATA", none⟩]⟩ rfl rfl rfl

/-- C4.  If any one of the five required configuration values is absent,
credential materialization produces no record, the failure output names
that specific absent variable, and server startup exits with code 1 —
no default is silently substituted. -/
theorem c4_missing_env (env : Env) (now : Nat) (writeOk : Bool) (v : EnvVar)
    (h : envGet env v = none) :
    (createCredentialsFromEnv env now writeOk).1 = none ∧
    ("- " ++ envVarName v) ∈ (createCredentialsFromEnv env now writeOk).2 ∧
    setupAuthentication env now writeOk = .exited 1 := by
  have hguard : createCredentialsFromEnv env now writeOk = (none, missingVarsMessage) := by
    cases v <;> simp only [envGet] at h <;>
      simp [createCredentialsFromEnv, truthy, h]
  have hmem : ("- " ++ envVarName v) ∈ missingVarsMessage := by
    cases v <;> decide
  refine ⟨by rw [hguard], by rw [hguard]; exact hmem, ?_⟩
  cases hpc : truthy env.GDRIVE_CREDENTIALS_PATH with
  | false => simp [setupAuthentication, hpc]
  | true => simp [setupAuthentication, hpc, hguard]

/-- Witness for C4 with the access token absent. -/
theorem c4_witness :
    (createCredentialsFromEnv ⟨none, some "r", some "i", some "s", some "p"⟩ 0 true).1 = none ∧
    ("- " ++ envVarName EnvVar.accessToken) ∈
      (createCredentialsFromEnv ⟨none, some "r", some "i", some "s", some "p"⟩ 0 true).2 ∧
    setupAuthentication ⟨none, some "r", some "i", some "s", some "p"⟩ 0 true =
      SetupOutcome.exited 1 :=
  c4_missing_env ⟨none, some "r", some "i", some "s", some "p"⟩ 0 true EnvVar.accessToken rfl

/-- C5.  A call-tool request named "search" without a query argument fails
with the required-query error, and a request with any other tool name
fails with the unknown-tool error; both are `Except.error` values (thrown
at the handler and surfaced as request-level failures), not process
exits. -/
theorem c5_calltool_errors (B : DriveBackend) (name : String) (q : Option String)
    (h : name ≠ "search") :
    callToolHandler B "search" none = .error "Query parameter is required" ∧
    callToolHandler B name q = .error "Tool not found" := by
  constructor
  · rfl
  · simp [callToolHandler, h]

/-- Witness for C5 at a concrete backend and tool name. -/
theorem c5_witness :
    callToolHandler Bfail "search" none = .error "Query parameter is required" ∧
    callToolHandler Bfail "frobnicate" none = .error "Tool not found" :=
  c5_calltool_errors Bfail "frobnicate" none (by decide)

theorem truthy_some_of_ne (s : String) (h : s ≠ "") : truthy (some s) = true := by
  simp [truthy, Bool.eq_false_iff, String.isEmpty_iff, h]

theorem orElseStr_some_empty_default (s : String) : orElseStr (some s) "" = s := by
  rcases eq_or_ne s "" with h | h
  · subst h; rfl
  · simp [orElseStr, String.isEmpty_iff, h]

theorem fileLine_eq_amendedLine (f : DriveFile) : fileLine f = amendedLine f := by
  rcases f with ⟨i, n, m⟩
  cases n <;> cases m <;> simp [fileLine, amendedLine, orElseStr]

theorem searchSummary_eq_amended (files : List DriveFile) :
    searchSummary (some files) = amendedSummary files := by
  have hf : fileLine = amendedLine := funext fileLine_eq_amendedLine
  simp [searchSummary, amendedSummary, orElseStr_some_empty_default, hf]

/-- C6 counterexample.  For a backend match whose name is present but
empty, the handler prints "Unknown" even though the name is not absent,
so the claimed format (fallback only when the name is absent) does not
match the code's output. -/
theorem c6_counterexample :
    searchSummary (some [emptyNameFile]) = "Found 1 files:\nUnknown (text/plain)" ∧
    claimSummary [emptyNameFile] = "Found 1 files:\n (text/plain)" ∧
    searchSummary (some [emptyNameFile]) ≠ claimSummary [emptyNameFile] := by
  refine ⟨rfl, rfl, by decide⟩

/-- C6 (amended).  For every successful search invocation the single
content item is exactly `Found N files:` followed by a newline and one
line per match of the form `name (mimeType)` joined by newlines, in
backend order, with `isError: false` — where the name falls back to
"Unknown" when it is absent or empty, and the mimeType falls back to
"Unknown type" when it is absent or empty. -/
theorem c6_search_summary_amended (B : DriveBackend) (q : String) (files : List DriveFile)
    (npt : Option String) (hq : q ≠ "")
    (h : B.filesList (searchParams q) = .ok ⟨some files, npt⟩) :
    callToolHandler B "search" (some q) = .ok ⟨[⟨"text", amendedSummary files⟩], false⟩ := by
  have ht : truthy (some q) = true := truthy_some_of_ne q hq
  simp [callToolHandler, searchBranch, ht, h, searchSummary_eq_amended]

/-- Witness for C6 on the specification's own two-file example. -/
theorem c6_witness :
    callToolHandler Bbudget "search" (some "budget") =
      .ok ⟨[⟨"text",
        "Found 2 files:\nQ1 budget.xlsx (application/vnd.google-apps.spreadsheet)\nbudget-notes.txt (text/plain)"⟩],
        false⟩ :=
  c6_search_summary_amended Bbudget "budget" budgetFiles none (by decide) rfl

/-- C7 counterexample.  A request carrying the empty-string cursor does
not have that cursor passed to the backend: the page token stays unset,
so the pass-through is not verbatim for every cursor. -/
theorem c7_counterexample :
    (listParams (some "")).pageToken = none ∧
    (listParams (some "")).pageToken ≠ some "" := by
  refine ⟨rfl, by decide⟩

/-- C7 (amended).  Every request carrying a non-empty cursor has that
cursor passed verbatim as the backend page token; an absent or empty
cursor sends no page token; and the `nextCursor` returned to the caller
is exactly the backend's next-page token. -/
theorem c7_cursor_passthrough (c : String) (hc : c ≠ "") (B : DriveBackend)
    (cur : Option String) (resp : ListData)
    (h : B.filesList (listParams cur) = .ok resp) :
    (listParams (some c)).pageToken = some c ∧
    (listParams none).pageToken = none ∧
    (listParams (some "")).pageToken = none ∧
    (listResources B cur).toOption.map ListResult.nextCursor = some resp.nextPageToken := by
  refine ⟨?_, rfl, rfl, ?_⟩
  · simp [listParams, truthy_some_of_ne c hc]
  · simp [listResources, h, Except.toOption]

/-- Witness for C7 at a concrete cursor and backend. -/
theorem c7_witness :
    (listParams (some "tok")).pageToken = some "tok" ∧
    (listParams none).pageToken = none ∧
    (listParams (some "")).pageToken = none ∧
    (listResources Bnext (some "tok")).toOption.map ListResult.nextCursor =
      some (some "pageTwo") :=
  c7_cursor_passthrough "tok" (by decide) Bnext (some "tok") ⟨some [], some "pageTwo"⟩ rfl

/-- C8 counterexample.  A malformed URI (no `gdrive:///` shape) is not
rejected at the handler: it is forwarded to the backend as a file id
unchanged, and when the backend happens to know that id the read
succeeds, so a malformed URI is not necessarily reported as a failure at
all. -/
theorem c8_counterexample :
    stripScheme "notauri" = "notauri" ∧
    readResource Bmedia K0 "notauri" =
      .ok ⟨[⟨"notauri", "text/plain", some "hi", none⟩]⟩ :=
  ⟨rfl, rfl⟩

/-- C8 (amended).  The read handler performs no local URI validation: the
first occurrence of the scheme prefix is stripped and the remainder is
used as the file id; when the backend then fails, the failure surfaces as
a request-level `Except.error` at the handler (never a process-fatal
outcome), and when the backend recognizes the id the read succeeds. -/
theorem c8_backend_error_is_request_failure (B : DriveBackend) (K : Codec) (uri e : String)
    (h : B.getMeta (stripScheme uri) = .error e) :
    readResource B K uri = .error e := by
  unfold readResource
  rw [h]

/-- Witness for C8 at a concrete malformed URI on a failing backend. -/
theorem c8_witness :
    readResource Bfail K0 "not-a-uri" = .error "offline" :=
  c8_backend_error_is_request_failure Bfail K0 "not-a-uri" "offline" rfl

/-- C9 counterexample.  The empty-string query is a string value of the
query argument, yet the handler rejects it with the required-query error
instead of proceeding to the search: the guard tests JavaScript
truthiness, not presence. -/
theorem c9_counterexample :
    callToolHandler Bbudget "search" (some "") = .error "Query parameter is required" := rfl

/-- C9 (amended).  Every non-empty query string is accepted and the
handler proceeds to issue the search (no other length or character
restriction); an absent or empty query argument is rejected with the
required-query error. -/
theorem c9_nonempty_query_accepted (B : DriveBackend) (q : String) (hq : q ≠ "") :
    callToolHandler B "search" (some q) = searchBranch B q ∧
    callToolHandler B "search" none = .error "Query parameter is required" ∧
    callToolHandler B "search" (some "") = .error "Query parameter is required" := by
  refine ⟨?_, rfl, rfl⟩
  simp [callToolHandler, truthy_some_of_ne q hq]

/-- Witness for C9 at a concrete non-empty query. -/
theorem c9_witness :
    callToolHandler Bnext "search" (some "budget") = searchBranch Bnext "budget" ∧
    callToolHandler Bnext "search" none = .error "Query parameter is required" ∧
    callToolHandler Bnext "search" (some "") = .error "Query parameter is required" :=
  c9_nonempty_query_accepted Bnext "budget" (by decide)

end GDrive
